import Mathlib

/-!
Verification of the gmail rules engine repository.

This file gives a shallow embedding of the core logic of the repository
(`gmail_rules_engine/rule_engine.py`, `gmail_rules_engine/actions.py`,
`gmail_rules_engine/email_fetcher.py`, `gmail_rules_engine/db/manager.py`)
and proves or refutes the specification claims about it.

Modelling conventions:
- Timestamps are integers (seconds since the epoch); `timedelta.days` of
  Python becomes floor division by 86400 (`Int.fdiv`), matching the
  normalisation Python applies to `timedelta`.
- Python exceptions that can escape the modelled code are made explicit with
  `Except PyErr`: `valueError` models `int()` raising on a non-numeric
  string, `unboundLocal` models `UnboundLocalError` for a local variable
  referenced before assignment.
- The remote Gmail service is an oracle `remoteOk : RemoteOp → Bool` inside
  a `World`; every remote call is appended to `World.calls`.  The source's
  `EmailFetcher` methods catch `HttpError` and return `False`, so a failing
  call never raises; the oracle decides the returned boolean.
- Strings are treated at the ASCII level: Python `str.lower` is modelled by
  `lower_string` and Python's substring test `a in b` by `py_in`.
- Nullable ORM columns (`subject`, `body`) are `Option String`; the
  `labels` ARRAY column may hold SQL NULL elements (Python `None` appended
  by `_move_message` when the action value is null), hence
  `List (Option String)`.
-/

deriving instance DecidableEq for Except

namespace GmailRulesEngine

/-- Exceptions that can escape the modelled Python code. -/
inductive PyErr
  | valueError
  | unboundLocal
deriving DecidableEq

/-- A stored message row (`db/models.py`, class `Email`).  Fields irrelevant
to the claims (`thread_id`, `raw_data`, timestamps of the row) are omitted;
`received_date` is epoch seconds. -/
structure Email where
  id : Nat
  message_id : String
  from_address : String
  to_address : String
  subject : Option String
  body : Option String
  received_date : Int
  is_read : Bool
  labels : List (Option String)
deriving DecidableEq

/-- One entry of a rule's `conditions` list, as read with `dict.get`:
absent keys are `none`. -/
structure Condition where
  field : Option String
  predicate : Option String
  value : Option String
deriving DecidableEq

/-- One entry of a rule's `actions` list. -/
structure Action where
  type : Option String
  value : Option String
deriving DecidableEq

/-- A rule from the rules JSON file.  `rule["id"]` is accessed with
subscription (a missing id would be a KeyError), so it is a plain field;
`predicate` is read with `rule.get("predicate", "all")`. -/
structure Rule where
  id : String
  predicate : Option String
  conditions : List Condition
  actions : List Action
deriving DecidableEq

/-- A `rule_executions` row (`db/models.py`, class `RuleExecution`);
`actions_taken` is the JSON mapping action type -> applied value. -/
structure ExecEntry where
  email_id : Nat
  rule_id : String
  actions_taken : List (String × Option String)
deriving DecidableEq

/-- The persistent store: the `emails` and `rule_executions` tables. -/
structure DB where
  emails : List Email
  executions : List ExecEntry
deriving DecidableEq

/-- A remote Gmail API operation performed by `EmailFetcher`. -/
inductive RemoteOp
  | markRead (message_id : String)
  | markUnread (message_id : String)
  | move (message_id : String) (label : Option String)
deriving DecidableEq

/-- The full state threaded through a pass: the store, an oracle saying
which remote calls succeed, and the log of remote calls made so far. -/
structure World where
  db : DB
  remoteOk : RemoteOp → Bool
  calls : List RemoteOp

/-- ASCII lowercase of one character (Python `str.lower` restricted to
ASCII, the modelled character range). -/
def lower_char (c : Char) : Char :=
  if 65 ≤ c.toNat ∧ c.toNat ≤ 90 then Char.ofNat (c.toNat + 32) else c

/-- ASCII lowercase of a string. -/
def lower_string (s : String) : String :=
  ⟨s.data.map lower_char⟩

/-- Does `needle` occur as a prefix of `hay`? -/
def starts_with_chars : List Char → List Char → Bool
  | [], _ => true
  | _ :: _, [] => false
  | a :: as, b :: bs => a == b && starts_with_chars as bs

/-- Does `needle` occur as a contiguous substring of `hay`? -/
def has_substring_chars : List Char → List Char → Bool
  | needle, [] => needle.isEmpty
  | needle, b :: bs => starts_with_chars needle (b :: bs) || has_substring_chars needle bs

/-- Python's substring test `needle in hay` (`"" in s` is true). -/
def py_in (needle hay : String) : Bool :=
  has_substring_chars needle.data hay.data

/-- ASCII whitespace, as stripped by Python `int` before parsing. -/
def is_py_space (c : Char) : Bool :=
  c == ' ' || c == '\t' || c == '\n' || c == '\r'

/-- Numeric value of a list of decimal digit characters. -/
def digits_to_nat (ds : List Char) : Nat :=
  ds.foldl (fun acc c => acc * 10 + (c.toNat - 48)) 0

/-- Python's `int(s)` on a string, as a partial function: optional
surrounding whitespace, an optional sign, then at least one decimal digit
(`none` models `ValueError`). -/
def py_int (s : String) : Option Int :=
  let t := ((s.data.dropWhile is_py_space).reverse.dropWhile is_py_space).reverse
  match t with
  | [] => none
  | c :: cs =>
      let signed : Bool × List Char :=
        if c = '-' then (true, cs)
        else if c = '+' then (false, cs)
        else (false, c :: cs)
      if signed.2 ≠ [] ∧ signed.2.all (fun d => decide (48 ≤ d.toNat ∧ d.toNat ≤ 57)) then
        some (if signed.1 then -(digits_to_nat signed.2 : Int)
          else (digits_to_nat signed.2 : Int))
      else none

/-- Python `timedelta.days` for the difference of two epoch timestamps:
floor division of the elapsed seconds by 86400. -/
def elapsed_days (now date : Int) : Int :=
  (now - date).fdiv 86400

/-- The value of a record field, as produced by
`RuleEngine._get_field_value`: a string for address/subject/body fields, a
timestamp for `received_date`. -/
inductive FieldValue
  | str (s : String)
  | date (t : Int)
deriving DecidableEq

/-- `RuleEngine._get_field_value` (rule_engine.py lines 171-196): maps a
field name to the email attribute; unknown fields give `none`, and a NULL
`subject`/`body` column also surfaces as `none`. -/
def get_field_value (e : Email) (field : String) : Option FieldValue :=
  if field = "from" then some (.str e.from_address)
  else if field = "to" then some (.str e.to_address)
  else if field = "subject" then e.subject.map .str
  else if field = "message" then e.body.map .str
  else if field = "received_date" then some (.date e.received_date)
  else none

/-- The `string_predicates` table of `RuleEngine.__init__`: dispatch on the
predicate name; a name not in the table means the lookup returned `None`
and evaluation falls through to the warn-and-return-False tail, hence
`false`.  The `.date` case cannot be reached from `evaluate_condition`
(string predicates are only applied to non-`received_date` fields). -/
def apply_string_predicate (pred : String) (fv : FieldValue) (value : String) : Bool :=
  match fv with
  | .str s =>
      if pred = "contains" then py_in (lower_string value) (lower_string s)
      else if pred = "does_not_contain" then !(py_in (lower_string value) (lower_string s))
      else if pred = "equals" then lower_string s == lower_string value
      else if pred = "does_not_equal" then !(lower_string s == lower_string value)
      else false
  | .date _ => false

/-- The `date_predicates` table of `RuleEngine.__init__` (rule_engine.py
lines 34-51): each lambda computes `(now - date).days` compared strictly
against `int(value)` (months approximated as 30 days).  `int` on a
non-numeric value raises `ValueError`, modelled as `.error .valueError`.
A predicate name not in the table falls through to the
warn-and-return-False tail.  The `.str` case cannot be reached from
`evaluate_condition` (`received_date` always yields a date value). -/
def apply_date_predicate (now : Int) (pred : String) (fv : FieldValue) (value : String) :
    Except PyErr Bool :=
  match fv with
  | .date d =>
      if pred = "less_than_days" then
        match py_int value with
        | some n => .ok (decide (elapsed_days now d < n))
        | none => .error .valueError
      else if pred = "greater_than_days" then
        match py_int value with
        | some n => .ok (decide (n < elapsed_days now d))
        | none => .error .valueError
      else if pred = "less_than_months" then
        match py_int value with
        | some n => .ok (decide (elapsed_days now d < n * 30))
        | none => .error .valueError
      else if pred = "greater_than_months" then
        match py_int value with
        | some n => .ok (decide (n * 30 < elapsed_days now d))
        | none => .error .valueError
      else .ok false
  | .str _ => .ok false

/-- `RuleEngine._evaluate_condition` (rule_engine.py lines 135-169).
`if not field or not predicate or value is None: return False` — note the
asymmetry: field and predicate use Python falsiness (missing or empty
string), value only `is None`. -/
def evaluate_condition (now : Int) (e : Email) (c : Condition) : Except PyErr Bool :=
  let field := c.field.getD ""
  let pred := c.predicate.getD ""
  if field = "" ∨ pred = "" ∨ c.value = none then .ok false
  else
    match get_field_value e field with
    | none => .ok false
    | some fv =>
        if field = "received_date" then
          apply_date_predicate now pred fv (c.value.getD "")
        else
          .ok (apply_string_predicate pred fv (c.value.getD ""))

/-- Python's `all(...)` over a generator of condition evaluations:
short-circuits on the first `False`, propagates the first exception
raised before the short-circuit point. -/
def eval_all (now : Int) (e : Email) : List Condition → Except PyErr Bool
  | [] => .ok true
  | c :: cs =>
      match evaluate_condition now e c with
      | .error err => .error err
      | .ok false => .ok false
      | .ok true => eval_all now e cs

/-- Python's `any(...)` over a generator of condition evaluations. -/
def eval_any (now : Int) (e : Email) : List Condition → Except PyErr Bool
  | [] => .ok false
  | c :: cs =>
      match evaluate_condition now e c with
      | .error err => .error err
      | .ok true => .ok true
      | .ok false => eval_any now e cs

/-- `RuleEngine._evaluate_rule` (rule_engine.py lines 106-133): empty
condition list never matches; the predicate mode defaults to `"all"` and is
lowercased before comparison; an unrecognised mode is logged and yields
`False`. -/
def evaluate_rule (now : Int) (e : Email) (r : Rule) : Except PyErr Bool :=
  if r.conditions.isEmpty then .ok false
  else
    let p := lower_string (r.predicate.getD "all")
    if p = "all" then eval_all now e r.conditions
    else if p = "any" then eval_any now e r.conditions
    else .ok false

/-- A database column of the `emails` table, as referenced by the pushdown
translation in `DatabaseManager.get_emails_for_rule`. -/
inductive Col
  | from_address
  | to_address
  | subject
  | body
  | received_date
deriving DecidableEq

/-- The string value a column yields in a SQL comparison: NULL for a NULL
text column (`received_date` is never used in a string comparison by the
source, so it is mapped to `none` as well). -/
def col_value (e : Email) : Col → Option String
  | .from_address => some e.from_address
  | .to_address => some e.to_address
  | .subject => e.subject
  | .body => e.body
  | .received_date => none

/-- The field-name to column mapping of `get_emails_for_rule`
(manager.py lines 233-245); an unrecognised field is skipped (`continue`). -/
def email_column (field : String) : Option Col :=
  if field = "from" then some .from_address
  else if field = "to" then some .to_address
  else if field = "subject" then some .subject
  else if field = "message" then some .body
  else if field = "received_date" then some .received_date
  else none

/-- A SQLAlchemy filter clause built by the pushdown translation. -/
inductive DbCond
  | dateAfter (threshold : Int)
  | dateBefore (threshold : Int)
  | ilikeContains (col : Col) (v : String)
  | ilikeNotContains (col : Col) (v : String)
  | lowerEq (col : Col) (v : String)
  | lowerNe (col : Col) (v : String)
deriving DecidableEq

/-- SQL evaluation of one filter clause against a row.  SQL three-valued
logic: any comparison with a NULL column is not true, so the row is
filtered out, including under the negated clauses. -/
def eval_db_condition (e : Email) : DbCond → Bool
  | .dateAfter t => decide (t < e.received_date)
  | .dateBefore t => decide (e.received_date < t)
  | .ilikeContains col v =>
      match col_value e col with
      | some s => py_in (lower_string v) (lower_string s)
      | none => false
  | .ilikeNotContains col v =>
      match col_value e col with
      | some s => !(py_in (lower_string v) (lower_string s))
      | none => false
  | .lowerEq col v =>
      match col_value e col with
      | some s => lower_string s == lower_string v
      | none => false
  | .lowerNe col v =>
      match col_value e col with
      | some s => !(lower_string s == lower_string v)
      | none => false

/-- The body of the per-condition loop of `get_emails_for_rule`
(manager.py lines 225-274): a condition with a falsy field/predicate or a
null value is skipped, as is an unknown field; date predicates build a
threshold from `int(value)` (which raises `ValueError` on a non-numeric
string, and the function's `except SQLAlchemyError` does not catch it);
a predicate name matching no branch contributes nothing. -/
def translate_condition (now : Int) (c : Condition) : Except PyErr (Option DbCond) :=
  let field := c.field.getD ""
  let pred := c.predicate.getD ""
  if field = "" ∨ pred = "" ∨ c.value = none then .ok none
  else
    let value := c.value.getD ""
    match email_column field with
    | none => .ok none
    | some col =>
        if field = "received_date" then
          if pred = "less_than_days" then
            match py_int value with
            | some n => .ok (some (.dateAfter (now - n * 86400)))
            | none => .error .valueError
          else if pred = "greater_than_days" then
            match py_int value with
            | some n => .ok (some (.dateBefore (now - n * 86400)))
            | none => .error .valueError
          else if pred = "less_than_months" then
            match py_int value with
            | some n => .ok (some (.dateAfter (now - n * 30 * 86400)))
            | none => .error .valueError
          else if pred = "greater_than_months" then
            match py_int value with
            | some n => .ok (some (.dateBefore (now - n * 30 * 86400)))
            | none => .error .valueError
          else .ok none
        else
          if pred = "contains" then .ok (some (.ilikeContains col value))
          else if pred = "does_not_contain" then .ok (some (.ilikeNotContains col value))
          else if pred = "equals" then .ok (some (.lowerEq col value))
          else if pred = "does_not_equal" then .ok (some (.lowerNe col value))
          else .ok none

/-- The `db_conditions` list accumulated by the loop of
`get_emails_for_rule`, with the first `ValueError` propagating. -/
def collect_db_conditions (now : Int) : List Condition → Except PyErr (List DbCond)
  | [] => .ok []
  | c :: cs =>
      match translate_condition now c with
      | .error err => .error err
      | .ok none => collect_db_conditions now cs
      | .ok (some d) =>
          match collect_db_conditions now cs with
          | .error err => .error err
          | .ok ds => .ok (d :: ds)

/-- Whether a `RuleExecution` row exists for the given rule and email, i.e.
the subquery of manager.py lines 283-285. -/
def has_execution (db : DB) (rule_id : String) (email_id : Nat) : Bool :=
  db.executions.any (fun x => x.rule_id == rule_id && x.email_id == email_id)

/-- `DatabaseManager.get_emails_for_rule` (manager.py lines 196-294):
empty condition list returns `[]` immediately; otherwise the translated
clauses are conjoined (mode `all`) or disjoined (mode `any`) when any
exist, and finally records already executed for this rule id are excluded.
The source builds the date thresholds from naive `datetime.now()` while
the in-memory evaluator uses `datetime.now(timezone.utc)`; the model uses
one `now` for both. -/
def get_emails_for_rule (rule : Rule) (db : DB) (now : Int) : Except PyErr (List Email) :=
  if rule.conditions.isEmpty then .ok []
  else
    match collect_db_conditions now rule.conditions with
    | .error err => .error err
    | .ok dbConds =>
        let p := lower_string (rule.predicate.getD "all")
        let base :=
          if p = "all" ∧ dbConds ≠ [] then
            db.emails.filter fun e => dbConds.all (eval_db_condition e)
          else if p = "any" ∧ dbConds ≠ [] then
            db.emails.filter fun e => dbConds.any (eval_db_condition e)
          else db.emails
        .ok (base.filter fun e => !(has_execution db rule.id e.id))

/-- `DatabaseManager.update_email` restricted to the updates the action
handler issues: `session.query(Email).filter_by(id=email_id).first()`
followed by `setattr`, so only the first row with the given id is
modified. -/
def update_first_email : List Email → Nat → (Email → Email) → List Email
  | [], _, _ => []
  | e :: es, i, f => if e.id = i then f e :: es else e :: update_first_email es i f

/-- Store update used by the action handler. -/
def update_email (db : DB) (i : Nat) (f : Email → Email) : DB :=
  { db with emails := update_first_email db.emails i f }

/-- `session.query(Email).filter_by(id=i).first()` on the store. -/
def db_lookup (db : DB) (i : Nat) : Option Email :=
  db.emails.find? (fun e => e.id == i)

/-- `EmailFetcher.mark_as_read` (email_fetcher.py lines 200-219): performs
the remote call and returns `True`, or `False` when Gmail reports an
`HttpError`; it never raises. -/
def fetcher_mark_as_read (mid : String) (w : World) : Bool × World :=
  (w.remoteOk (.markRead mid), { w with calls := w.calls ++ [.markRead mid] })

/-- `EmailFetcher.mark_as_unread` (email_fetcher.py lines 221-240). -/
def fetcher_mark_as_unread (mid : String) (w : World) : Bool × World :=
  (w.remoteOk (.markUnread mid), { w with calls := w.calls ++ [.markUnread mid] })

/-- `EmailFetcher.move_message` (email_fetcher.py lines 242-267), with the
label creation and modify call abstracted into one remote operation. -/
def fetcher_move_message (mid : String) (label : Option String) (w : World) : Bool × World :=
  (w.remoteOk (.move mid label), { w with calls := w.calls ++ [.move mid label] })

/-- `ActionHandler._mark_as_read` (actions.py lines 52-68): no-op returning
`True` when the record is already read; otherwise the remote call is made
with its boolean result discarded (exactly as in the source), the store is
mirrored, and `True` is returned unconditionally. -/
def action_mark_as_read (e : Email) (w : World) : Bool × World :=
  if e.is_read then (true, w)
  else
    let w1 := (fetcher_mark_as_read e.message_id w).2
    (true, { w1 with db := update_email w1.db e.id (fun x => { x with is_read := true }) })

/-- `ActionHandler._mark_as_unread` (actions.py lines 69-78). -/
def action_mark_as_unread (e : Email) (w : World) : Bool × World :=
  if !e.is_read then (true, w)
  else
    let w1 := (fetcher_mark_as_unread e.message_id w).2
    (true, { w1 with db := update_email w1.db e.id (fun x => { x with is_read := false }) })

/-- `ActionHandler._move_message` (actions.py lines 79-88): no-op when the
label is already present; otherwise remote call (result discarded) and the
store's label list is set to the in-memory record's labels plus the new
label. -/
def action_move_message (e : Email) (label : Option String) (w : World) : Bool × World :=
  if label ∈ e.labels then (true, w)
  else
    let w1 := (fetcher_move_message e.message_id label w).2
    (true, { w1 with db := update_email w1.db e.id (fun x => { x with labels := e.labels ++ [label] }) })

/-- `ActionHandler.handle_action` (actions.py lines 25-50): dispatch on the
action type; unknown types are logged and return `False`. -/
def handle_action (e : Email) (actionType : String) (actionValue : Option String) (w : World) :
    Bool × World :=
  if actionType = "mark_as_read" then action_mark_as_read e w
  else if actionType = "mark_as_unread" then action_mark_as_unread e w
  else if actionType = "move_message" then action_move_message e actionValue w
  else (false, w)

/-- The type of the `action_handler` callable passed to
`RuleEngine.process_emails`. -/
abbrev Handler := Email → String → Option String → World → Bool × World

/-- Python dict assignment `d[k] = v`: updates an existing key in place,
otherwise appends in insertion order. -/
def dict_insert (d : List (String × Option String)) (k : String) (v : Option String) :
    List (String × Option String) :=
  if d.any (fun p => p.1 == k) then
    d.map (fun p => if p.1 == k then (k, v) else p)
  else d ++ [(k, v)]

/-- `RuleEngine._execute_actions` (rule_engine.py lines 198-226): for each
action, a falsy type is skipped; the handler is called and, when it returns
`True`, the action is entered into `actions_taken`. -/
def execute_actions (e : Email) (rule : Rule) (handler : Handler) (w : World) :
    List (String × Option String) × World :=
  rule.actions.foldl
    (fun acc a =>
      let t := a.type.getD ""
      if t = "" then acc
      else
        let r := handler e t a.value acc.2
        if r.1 then (dict_insert acc.1 t a.value, r.2) else (acc.1, r.2))
    ([], w)

/-- The body of `for rule in self.rules` in `RuleEngine.process_emails`
(rule_engine.py lines 79-98): select candidates, run the actions for each,
and accumulate this rule's `batch_actions` (reset to `[]` at the start of
the rule) and the running `processed_count`. -/
def process_rule (rule : Rule) (handler : Handler) (now : Int) (w : World) :
    Except PyErr (Nat × World × List ExecEntry) :=
  match get_emails_for_rule rule w.db now with
  | .error err => .error err
  | .ok emails =>
      .ok (emails.foldl
        (fun acc email =>
          let r := execute_actions email rule handler acc.2.1
          if r.1.isEmpty then (acc.1, r.2, acc.2.2)
          else (acc.1 + 1, r.2, acc.2.2 ++ [⟨email.id, rule.id, r.1⟩]))
        (0, w, []))

/-- The rule loop of `RuleEngine.process_emails`: threads the world and the
count; the third component models the local variable `batch_actions`,
`none` meaning it was never assigned (no rule iteration ran). -/
def process_loop (handler : Handler) (now : Int) :
    List Rule → World → Nat → Option (List ExecEntry) →
    Except PyErr (Nat × World × Option (List ExecEntry))
  | [], w, cnt, batch => .ok (cnt, w, batch)
  | r :: rs, w, cnt, _ =>
      match process_rule r handler now w with
      | .error err => .error err
      | .ok (c, w2, b) => process_loop handler now rs w2 (cnt + c) (some b)

/-- `DatabaseManager.bulk_log_rule_executions` (manager.py lines 296-320):
inserts the batch in one transaction. -/
def bulk_log_rule_executions (db : DB) (batch : List ExecEntry) : DB :=
  { db with executions := db.executions ++ batch }

/-- `RuleEngine.process_emails` (rule_engine.py lines 67-104).  The final
`if batch_actions:` sits outside the rule loop, at method level: it sees
only the last rule's batch, and when the rule list is empty the local
`batch_actions` was never assigned, so the statement raises
`UnboundLocalError` (modelled by `.error .unboundLocal`). -/
def process_emails (rules : List Rule) (handler : Handler) (now : Int) (w : World) :
    Except PyErr (Nat × World) :=
  match process_loop handler now rules w 0 none with
  | .error err => .error err
  | .ok (_, _, none) => .error .unboundLocal
  | .ok (cnt, w2, some batch) =>
      if batch.isEmpty then .ok (cnt, w2)
      else .ok (cnt, { w2 with db := bulk_log_rule_executions w2.db batch })

/-- `RuleEngine._load_rules` (rule_engine.py lines 53-65): `none` stands
for any exception while opening or JSON-parsing the rules file (the
`except` branch logs and returns `[]`); `some rules` is a successful
`json.load`. -/
def load_rules (parsed : Option (List Rule)) : List Rule :=
  match parsed with
  | some rules => rules
  | none => []

/-! Concrete inputs used by the claim theorems, witnesses and
counterexamples. -/

/-- An unread email whose subject is "hello". -/
def c1_email : Email :=
  ⟨1, "m1", "a@x.com", "b@x.com", some "hello", some "", 0, false, []⟩

/-- A rule whose single condition names a known field but an unregistered
predicate, so the pushdown translation drops it while the in-memory
matcher evaluates it to false. -/
def c1_rule : Rule :=
  ⟨"r1", some "all", [⟨some "subject", some "bogus", some "zzz"⟩],
    [⟨some "mark_as_read", none⟩]⟩

/-- World for the C1 scenario: one stored email, no prior executions, all
remote calls succeed. -/
def c1_world : World := ⟨⟨[c1_email], []⟩, fun _ => true, []⟩

/-- Two unread emails distinguished by their subjects. -/
def c2_email1 : Email :=
  ⟨1, "m1", "a@x.com", "b@x.com", some "alpha news", none, 0, false, []⟩

def c2_email2 : Email :=
  ⟨2, "m2", "a@x.com", "b@x.com", some "beta news", none, 0, false, []⟩

/-- First rule of the C2 pass: matches the "alpha" email. -/
def c2_rule1 : Rule :=
  ⟨"ra", some "all", [⟨some "subject", some "contains", some "alpha"⟩],
    [⟨some "mark_as_read", none⟩]⟩

/-- Second rule of the C2 pass: matches the "beta" email. -/
def c2_rule2 : Rule :=
  ⟨"rb", some "all", [⟨some "subject", some "contains", some "beta"⟩],
    [⟨some "mark_as_read", none⟩]⟩

def c2_world : World := ⟨⟨[c2_email1, c2_email2], []⟩, fun _ => true, []⟩

/-- Emails for the C4 witness: email 1 already has an execution record for
rule "r1", email 2 does not. -/
def c4_email1 : Email := ⟨1, "m1", "a@x", "b@x", some "sale", none, 0, false, []⟩

def c4_email2 : Email := ⟨2, "m2", "a@x", "b@x", some "sale", none, 0, false, []⟩

def c4_rule : Rule :=
  ⟨"r1", some "all", [⟨some "subject", some "contains", some "sale"⟩], []⟩

def c4_db : DB := ⟨[c4_email1, c4_email2], [⟨1, "r1", [("mark_as_read", none)]⟩]⟩

/-- Email for the C5 witness: unread, already carrying label "L1". -/
def c5_email : Email := ⟨1, "m5", "a@x", "b@x", none, none, 0, false, [some "L1"]⟩

def c5_world : World := ⟨⟨[c5_email], []⟩, fun _ => true, []⟩

/-- Email for the C6 failing input: unread. -/
def c6_email : Email := ⟨1, "m6", "a@x", "b@x", none, none, 0, false, []⟩

/-- World in which every remote Gmail call fails (the fetcher returns
`False`). -/
def c6_world : World := ⟨⟨[c6_email], []⟩, fun _ => false, []⟩

/-- A rule matching `c6_email` by sender, acting with `mark_as_read`. -/
def c6_rule : Rule :=
  ⟨"r6", some "all", [⟨some "from", some "contains", some "a@x"⟩],
    [⟨some "mark_as_read", none⟩]⟩

/-- Email for the C7 counterexample. -/
def c7_email : Email := ⟨1, "m7", "a@x", "b@x", some "hello", none, 0, false, []⟩

/-- A rule whose predicate mode is the string "ALL": not equal to "all" or
"any", yet the engine lowercases it and runs the AND composition. -/
def c7_rule : Rule :=
  ⟨"r7", some "ALL", [⟨some "subject", some "contains", some "hell"⟩], []⟩

/-- Email and rule for the C7 witness (mode "Any"). -/
def c7w_email : Email := ⟨1, "m7w", "a@x", "b@x", some "xy", none, 0, false, []⟩

def c7w_rule : Rule :=
  ⟨"r7w", some "Any", [⟨some "subject", some "contains", some "x"⟩], []⟩

/-- Email for the C8 counterexample and witness. -/
def c8_email : Email := ⟨1, "m8", "a@x", "b@x", some "s", none, 0, false, []⟩

/-- A date condition whose value is not numeric: `int("abc")` raises. -/
def c8_condition : Condition := ⟨some "received_date", some "less_than_days", some "abc"⟩

/-- Email for the C9 witness, received at epoch second 0. -/
def c9_email : Email := ⟨1, "m9", "a@x", "b@x", none, none, 0, false, []⟩

/-- Rule for the C10 witness: three conditions, all malformed (missing
field, unknown field, missing predicate). -/
def c10_rule : Rule :=
  ⟨"r10", some "all",
    [⟨none, some "contains", some "x"⟩,
     ⟨some "weird", some "contains", some "x"⟩,
     ⟨some "subject", none, some "x"⟩],
    []⟩

def c10_email1 : Email := ⟨1, "ma", "a@x", "b@x", some "p", none, 0, false, []⟩

def c10_email2 : Email := ⟨2, "mb", "a@x", "b@x", some "q", none, 0, false, []⟩

/-- Store for the C10 witness: email 1 already executed for rule "r10". -/
def c10_db : DB := ⟨[c10_email1, c10_email2], [⟨1, "r10", [("mark_as_read", none)]⟩]⟩

/-- The known field names of `_get_field_value` and of the pushdown column
mapping. -/
def knownFields : List String := ["from", "to", "subject", "message", "received_date"]

/-- The malformed-condition classifier of claim C10: a condition whose
field or predicate is missing (Python-falsy), whose value is null, or
whose field is not a known field name. -/
def IsMalformed (c : Condition) : Prop :=
  c.field.getD "" = "" ∨ c.predicate.getD "" = "" ∨ c.value = none ∨
    c.field.getD "" ∉ knownFields

instance (c : Condition) : Decidable (IsMalformed c) := by
  unfold IsMalformed; infer_instance

/-- `Except.isOk` specialised to the evaluator's result type. -/
def except_ok : Except PyErr Bool → Bool
  | .ok _ => true
  | .error _ => false

/-! Helper lemmas. -/

theorem db_lookup_some_id (db : DB) (i : Nat) (e : Email)
    (h : db_lookup db i = some e) : e.id = i := by
  have hp := List.find?_some h
  simpa using hp

theorem find_update_first (l : List Email) (i : Nat) (f : Email → Email)
    (hf : ∀ x, (f x).id = x.id) :
    (update_first_email l i f).find? (fun e => e.id == i)
      = (l.find? (fun e => e.id == i)).map f := by
  induction l with
  | nil => rfl
  | cons e es ih =>
      by_cases h : e.id = i
      · rw [update_first_email, if_pos h]
        rw [List.find?_cons_of_pos _ (by simpa [hf] using h),
          List.find?_cons_of_pos _ (by simpa using h)]
        rfl
      · rw [update_first_email, if_neg h]
        rw [List.find?_cons_of_neg _ (by simpa using h),
          List.find?_cons_of_neg _ (by simpa using h), ih]

theorem db_lookup_update_email (db : DB) (i : Nat) (f : Email → Email)
    (hf : ∀ x, (f x).id = x.id) :
    db_lookup (update_email db i f) i = (db_lookup db i).map f := by
  unfold db_lookup update_email
  exact find_update_first db.emails i f hf

theorem eval_all_eq_all (now : Int) (e : Email) (cs : List Condition)
    (h : ∀ c ∈ cs, except_ok (evaluate_condition now e c) = true) :
    eval_all now e cs
      = .ok (cs.all fun c => decide (evaluate_condition now e c = .ok true)) := by
  induction cs with
  | nil => rfl
  | cons c cs ih =>
      have hc := h c (List.mem_cons_self c cs)
      cases heval : evaluate_condition now e c with
      | error err => rw [heval] at hc; exact absurd hc (by simp [except_ok])
      | ok b =>
          cases b with
          | false => simp [eval_all, heval]
          | true =>
              rw [eval_all, heval, ih (fun x hx => h x (List.mem_cons_of_mem c hx))]
              simp [heval]

theorem eval_any_eq_any (now : Int) (e : Email) (cs : List Condition)
    (h : ∀ c ∈ cs, except_ok (evaluate_condition now e c) = true) :
    eval_any now e cs
      = .ok (cs.any fun c => decide (evaluate_condition now e c = .ok true)) := by
  induction cs with
  | nil => rfl
  | cons c cs ih =>
      have hc := h c (List.mem_cons_self c cs)
      cases heval : evaluate_condition now e c with
      | error err => rw [heval] at hc; exact absurd hc (by simp [except_ok])
      | ok b =>
          cases b with
          | true => simp [eval_any, heval]
          | false =>
              rw [eval_any, heval, ih (fun x hx => h x (List.mem_cons_of_mem c hx))]
              simp [heval]

theorem get_field_value_unknown (e : Email) (f : String) (h : f ∉ knownFields) :
    get_field_value e f = none := by
  simp only [knownFields, List.mem_cons, List.not_mem_nil, or_false, not_or] at h
  simp [get_field_value, h.1, h.2.1, h.2.2.1, h.2.2.2.1, h.2.2.2.2]

theorem email_column_unknown (f : String) (h : f ∉ knownFields) :
    email_column f = none := by
  simp only [knownFields, List.mem_cons, List.not_mem_nil, or_false, not_or] at h
  simp [email_column, h.1, h.2.1, h.2.2.1, h.2.2.2.1, h.2.2.2.2]

theorem translate_condition_malformed (now : Int) (c : Condition)
    (h : IsMalformed c) : translate_condition now c = .ok none := by
  by_cases hb : c.field.getD "" = "" ∨ c.predicate.getD "" = "" ∨ c.value = none
  · rw [translate_condition, if_pos hb]
  · have hf : c.field.getD "" ∉ knownFields := by
      rcases h with h | h | h | h
      · exact absurd (Or.inl h) hb
      · exact absurd (Or.inr (Or.inl h)) hb
      · exact absurd (Or.inr (Or.inr h)) hb
      · exact h
    rw [translate_condition, if_neg hb, email_column_unknown _ hf]

theorem collect_db_conditions_malformed (now : Int) (cs : List Condition)
    (h : ∀ c ∈ cs, IsMalformed c) : collect_db_conditions now cs = .ok [] := by
  induction cs with
  | nil => rfl
  | cons c cs ih =>
      rw [collect_db_conditions,
        translate_condition_malformed now c (h c (List.mem_cons_self c cs))]
      exact ih (fun x hx => h x (List.mem_cons_of_mem c hx))

theorem evaluate_condition_malformed (now : Int) (e : Email) (c : Condition)
    (h : IsMalformed c) : evaluate_condition now e c = .ok false := by
  by_cases hb : c.field.getD "" = "" ∨ c.predicate.getD "" = "" ∨ c.value = none
  · rw [evaluate_condition, if_pos hb]
  · have hf : c.field.getD "" ∉ knownFields := by
      rcases h with h | h | h | h
      · exact absurd (Or.inl h) hb
      · exact absurd (Or.inr (Or.inl h)) hb
      · exact absurd (Or.inr (Or.inr h)) hb
      · exact h
    rw [evaluate_condition, if_neg hb, get_field_value_unknown e _ hf]

theorem apply_string_predicate_unregistered (p v : String) (fv : FieldValue)
    (hp : p ∉ ["contains", "does_not_contain", "equals", "does_not_equal"]) :
    apply_string_predicate p fv v = false := by
  simp only [List.mem_cons, List.not_mem_nil, or_false, not_or] at hp
  cases fv with
  | str s => simp [apply_string_predicate, hp.1, hp.2.1, hp.2.2.1, hp.2.2.2]
  | date t => rfl

theorem apply_date_predicate_unregistered (now : Int) (p v : String) (fv : FieldValue)
    (hp : p ∉ ["less_than_days", "greater_than_days", "less_than_months",
      "greater_than_months"]) :
    apply_date_predicate now p fv v = .ok false := by
  simp only [List.mem_cons, List.not_mem_nil, or_false, not_or] at hp
  cases fv with
  | date d => simp [apply_date_predicate, hp.1, hp.2.1, hp.2.2.1, hp.2.2.2]
  | str s => rfl

theorem apply_date_predicate_bad_value (now : Int) (p v : String) (d : Int)
    (hp : p ∈ ["less_than_days", "greater_than_days", "less_than_months",
      "greater_than_months"])
    (hv : py_int v = none) :
    apply_date_predicate now p (.date d) v = .error .valueError := by
  simp only [List.mem_cons, List.not_mem_nil, or_false] at hp
  rcases hp with rfl | rfl | rfl | rfl <;> simp [apply_date_predicate, hv]

theorem evaluate_condition_less_than_days (now : Int) (e : Email) (v : String) (n : Int)
    (hv : py_int v = some n) :
    evaluate_condition now e ⟨some "received_date", some "less_than_days", some v⟩
      = .ok (decide (elapsed_days now e.received_date < n)) := by
  simp [evaluate_condition, get_field_value, apply_date_predicate, hv]

theorem evaluate_condition_greater_than_days (now : Int) (e : Email) (v : String) (n : Int)
    (hv : py_int v = some n) :
    evaluate_condition now e ⟨some "received_date", some "greater_than_days", some v⟩
      = .ok (decide (n < elapsed_days now e.received_date)) := by
  simp [evaluate_condition, get_field_value, apply_date_predicate, hv]

theorem handle_action_read (e : Email) (v : Option String) (w : World) :
    handle_action e "mark_as_read" v w = action_mark_as_read e w := rfl

theorem handle_action_unread (e : Email) (v : Option String) (w : World) :
    handle_action e "mark_as_unread" v w = action_mark_as_unread e w := rfl

theorem handle_action_move (e : Email) (l : Option String) (w : World) :
    handle_action e "move_message" l w = action_move_message e l w := rfl

theorem action_mark_as_read_not_read (e : Email) (w : World) (h : e.is_read = false) :
    action_mark_as_read e w
      = (true, { w with
                 db := update_email w.db e.id (fun x => { x with is_read := true }),
                 calls := w.calls ++ [.markRead e.message_id] }) := by
  rw [action_mark_as_read, if_neg (by simp [h])]
  rfl

theorem action_mark_as_unread_read (e : Email) (w : World) (h : e.is_read = true) :
    action_mark_as_unread e w
      = (true, { w with
                 db := update_email w.db e.id (fun x => { x with is_read := false }),
                 calls := w.calls ++ [.markUnread e.message_id] }) := by
  rw [action_mark_as_unread, if_neg (by simp [h])]
  rfl

theorem action_move_message_new (e : Email) (l : Option String) (w : World)
    (h : l ∉ e.labels) :
    action_move_message e l w
      = (true, { w with
                 db := update_email w.db e.id (fun x => { x with labels := e.labels ++ [l] }),
                 calls := w.calls ++ [.move e.message_id l] }) := by
  rw [action_move_message, if_neg h]
  rfl

theorem db_lookup_update_email_some (db : DB) (i : Nat) (f : Email → Email)
    (hf : ∀ x, (f x).id = x.id) (e : Email) (h : db_lookup db i = some e) :
    db_lookup (update_email db i f) i = some (f e) := by
  rw [db_lookup_update_email db i f hf, h]
  rfl

/-! Claim theorems. -/

/-- Claim C3: when the rule source is invalid or unparseable, rule loading
yields an empty rule list, but the subsequent pass over zero rules does
NOT complete as a no-op: `process_emails` evaluates `if batch_actions:`
with the local `batch_actions` never assigned (the assignment sits inside
the rule loop, the check outside it), so the pass raises
`UnboundLocalError` instead of returning 0.  This refutes the
exception-freedom half of the claim on the code as written. -/
theorem c3_zero_rules_pass_raises (w : World) (handler : Handler) (now : Int) :
    load_rules none = [] ∧
      process_emails (load_rules none) handler now w = .error .unboundLocal :=
  ⟨rfl, rfl⟩

/-- Claim C4: once an execution record for a (record, rule) pair exists in
the store, `get_emails_for_rule` never returns that record for that rule:
the exclusion subquery is applied on every non-error path. -/
theorem c4_executed_pair_never_reselected (rule : Rule) (db : DB) (now : Int)
    (e : Email) (l : List Email)
    (hsel : get_emails_for_rule rule db now = .ok l)
    (hex : has_execution db rule.id e.id = true) :
    e ∉ l := by
  unfold get_emails_for_rule at hsel
  by_cases hc : rule.conditions.isEmpty
  · rw [if_pos hc] at hsel
    cases hsel
    simp
  · rw [if_neg hc] at hsel
    cases hcol : collect_db_conditions now rule.conditions with
    | error err => rw [hcol] at hsel; exact absurd hsel (by simp)
    | ok ds =>
        rw [hcol] at hsel
        simp only [Except.ok.injEq] at hsel
        subst hsel
        intro hmem
        simp only [List.mem_filter, hex] at hmem
        simp at hmem

/-- Claim C4 witness: in a store where email 1 already has an execution
record for rule "r1", candidate selection for "r1" (which returns email 2)
does not contain email 1. -/
theorem c4_witness : c4_email1 ∉ [c4_email2] :=
  c4_executed_pair_never_reselected c4_rule c4_db 0 c4_email1 [c4_email2]
    (by decide) (by decide)

/-- Claim C5: an action on a record already in the desired state (read for
mark_as_read, unread for mark_as_unread, target label present for
move_message) returns true while leaving the world — store, call log,
everything — untouched; and when the record is not yet in the desired
state, the action makes exactly one remote call, after which re-applying
the same action to the record as re-read from the store is a pure no-op,
so applying the same action twice in sequence performs exactly one remote
call. -/
theorem c5_idempotent_actions (w : World) (e : Email) (v : Option String)
    (l : Option String) (i : Nat) :
    (e.is_read = true → handle_action e "mark_as_read" v w = (true, w)) ∧
    (e.is_read = false → handle_action e "mark_as_unread" v w = (true, w)) ∧
    (l ∈ e.labels → handle_action e "move_message" l w = (true, w)) ∧
    (db_lookup w.db i = some e → e.is_read = false →
      (handle_action e "mark_as_read" v w).2.calls
          = w.calls ++ [.markRead e.message_id] ∧
      ∀ e2, db_lookup (handle_action e "mark_as_read" v w).2.db i = some e2 →
        handle_action e2 "mark_as_read" v (handle_action e "mark_as_read" v w).2
          = (true, (handle_action e "mark_as_read" v w).2)) ∧
    (db_lookup w.db i = some e → e.is_read = true →
      (handle_action e "mark_as_unread" v w).2.calls
          = w.calls ++ [.markUnread e.message_id] ∧
      ∀ e2, db_lookup (handle_action e "mark_as_unread" v w).2.db i = some e2 →
        handle_action e2 "mark_as_unread" v (handle_action e "mark_as_unread" v w).2
          = (true, (handle_action e "mark_as_unread" v w).2)) ∧
    (db_lookup w.db i = some e → l ∉ e.labels →
      (handle_action e "move_message" l w).2.calls
          = w.calls ++ [.move e.message_id l] ∧
      ∀ e2, db_lookup (handle_action e "move_message" l w).2.db i = some e2 →
        handle_action e2 "move_message" l (handle_action e "move_message" l w).2
          = (true, (handle_action e "move_message" l w).2)) := by
  refine ⟨?_, ?_, ?_, ?_, ?_, ?_⟩
  · intro h
    rw [handle_action_read, action_mark_as_read, if_pos h]
  · intro h
    rw [handle_action_unread, action_mark_as_unread, if_pos (by simp [h])]
  · intro h
    rw [handle_action_move, action_move_message, if_pos h]
  · intro hlook hread
    have hid : e.id = i := db_lookup_some_id w.db i e hlook
    have hw2 : handle_action e "mark_as_read" v w
        = (true, { w with
            db := update_email w.db e.id (fun x => { x with is_read := true }),
            calls := w.calls ++ [RemoteOp.markRead e.message_id] }) := by
      rw [handle_action_read, action_mark_as_read_not_read e w hread]
    rw [hw2]
    refine ⟨rfl, ?_⟩
    intro e2 hlook2
    dsimp only at hlook2
    rw [hid, db_lookup_update_email_some w.db i
      (fun x => { x with is_read := true }) (fun x => rfl) e hlook] at hlook2
    cases hlook2
    rw [handle_action_read, action_mark_as_read, if_pos rfl]
  · intro hlook hread
    have hid : e.id = i := db_lookup_some_id w.db i e hlook
    have hw2 : handle_action e "mark_as_unread" v w
        = (true, { w with
            db := update_email w.db e.id (fun x => { x with is_read := false }),
            calls := w.calls ++ [RemoteOp.markUnread e.message_id] }) := by
      rw [handle_action_unread, action_mark_as_unread_read e w hread]
    rw [hw2]
    refine ⟨rfl, ?_⟩
    intro e2 hlook2
    dsimp only at hlook2
    rw [hid, db_lookup_update_email_some w.db i
      (fun x => { x with is_read := false }) (fun x => rfl) e hlook] at hlook2
    cases hlook2
    rw [handle_action_unread, action_mark_as_unread, if_pos (by simp)]
  · intro hlook hlab
    have hid : e.id = i := db_lookup_some_id w.db i e hlook
    have hw2 : handle_action e "move_message" l w
        = (true, { w with
            db := update_email w.db e.id (fun x => { x with labels := e.labels ++ [l] }),
            calls := w.calls ++ [RemoteOp.move e.message_id l] }) := by
      rw [handle_action_move, action_move_message_new e l w hlab]
    rw [hw2]
    refine ⟨rfl, ?_⟩
    intro e2 hlook2
    dsimp only at hlook2
    rw [hid, db_lookup_update_email_some w.db i
      (fun x => { x with labels := e.labels ++ [l] }) (fun x => rfl) e hlook] at hlook2
    cases hlook2
    rw [handle_action_move, action_move_message, if_pos (by simp : l ∈ e.labels ++ [l])]

/-- Claim C5 witness: on a store with one unread email carrying label
"L1": moving to "L1" is a complete no-op, and marking as read followed by
marking the re-read record as read again performs exactly one remote
call. -/
theorem c5_witness :
    handle_action c5_email "move_message" (some "L1") c5_world = (true, c5_world) ∧
    (handle_action c5_email "mark_as_read" none c5_world).2.calls
      = [RemoteOp.markRead "m5"] ∧
    ∀ e2, db_lookup (handle_action c5_email "mark_as_read" none c5_world).2.db 1
        = some e2 →
      handle_action e2 "mark_as_read" none
          (handle_action c5_email "mark_as_read" none c5_world).2
        = (true, (handle_action c5_email "mark_as_read" none c5_world).2) := by
  have h := c5_idempotent_actions c5_world c5_email none (some "L1") 1
  exact ⟨h.2.2.1 (by decide),
    (h.2.2.2.1 (by decide) rfl).1,
    (h.2.2.2.1 (by decide) rfl).2⟩

/-- Claim C9: `less_than_days` is a strict comparison on whole elapsed
days: at exactly 5 elapsed days, value "5" gives false and value "6" gives
true; in general `less_than_days` decides `elapsed < n` and
`greater_than_days` decides `elapsed > n`, both strict. -/
theorem c9_strict_day_comparison (now : Int) (e : Email) :
    (elapsed_days now e.received_date = 5 →
      evaluate_condition now e
          ⟨some "received_date", some "less_than_days", some "5"⟩ = .ok false ∧
      evaluate_condition now e
          ⟨some "received_date", some "less_than_days", some "6"⟩ = .ok true) ∧
    (∀ v : String, ∀ n : Int, py_int v = some n →
      evaluate_condition now e
          ⟨some "received_date", some "less_than_days", some v⟩
        = .ok (decide (elapsed_days now e.received_date < n)) ∧
      evaluate_condition now e
          ⟨some "received_date", some "greater_than_days", some v⟩
        = .ok (decide (n < elapsed_days now e.received_date))) := by
  constructor
  · intro h5
    constructor
    · rw [evaluate_condition_less_than_days now e "5" 5 (by decide), h5]
      simp
    · rw [evaluate_condition_less_than_days now e "6" 6 (by decide), h5]
      simp
  · intro v n hv
    exact ⟨evaluate_condition_less_than_days now e v n hv,
      evaluate_condition_greater_than_days now e v n hv⟩

/-- Claim C9 witness: a record received exactly 5 days before `now`
(now = 5·86400, received at epoch 0) fails `less_than_days "5"` and
satisfies `less_than_days "6"`. -/
theorem c9_witness :
    evaluate_condition (5 * 86400) c9_email
        ⟨some "received_date", some "less_than_days", some "5"⟩ = .ok false ∧
    evaluate_condition (5 * 86400) c9_email
        ⟨some "received_date", some "less_than_days", some "6"⟩ = .ok true :=
  (c9_strict_day_comparison (5 * 86400) c9_email).1 (by decide)

/-- Claim C10: a rule whose conditions are all malformed (missing field,
predicate or value, or an unknown field) has every condition skipped by
the pushdown translation, so no content filter is applied and candidate
selection returns every stored record not yet excluded for the rule —
even though the in-memory evaluator returns false on each such
condition. -/
theorem c10_malformed_conditions_select_all (rule : Rule) (db : DB) (now : Int)
    (hne : rule.conditions ≠ [])
    (hmal : ∀ c ∈ rule.conditions, IsMalformed c) :
    get_emails_for_rule rule db now
      = .ok (db.emails.filter fun e => !(has_execution db rule.id e.id)) ∧
    ∀ c ∈ rule.conditions, ∀ e : Email, evaluate_condition now e c = .ok false := by
  constructor
  · have hempty : rule.conditions.isEmpty = false := by
      cases hcs : rule.conditions with
      | nil => exact absurd hcs hne
      | cons a as => rfl
    rw [get_emails_for_rule, if_neg (by simp [hempty]),
      collect_db_conditions_malformed now rule.conditions hmal]
    simp
  · intro c hc e
    exact evaluate_condition_malformed now e c (hmal c hc)

/-- Claim C10 witness: a rule with three malformed conditions selects
every record without an execution record for it (email 2 but not the
already-executed email 1), and the in-memory evaluator rejects its
unknown-field condition on every record. -/
theorem c10_witness :
    get_emails_for_rule c10_rule c10_db 0 = .ok [c10_email2] ∧
    evaluate_condition 0 c10_email2 ⟨some "weird", some "contains", some "x"⟩
      = .ok false := by
  have h := c10_malformed_conditions_select_all c10_rule c10_db 0
    (by decide) (by decide)
  refine ⟨?_, ?_⟩
  · rw [h.1]
    decide
  · exact h.2 ⟨some "weird", some "contains", some "x"⟩ (by decide) c10_email2

/-- Claim C7 counterexample: the claim says any mode string other than
"all" and "any" never matches, but the engine lowercases the mode first:
with mode "ALL" — which is neither "all" nor "any" — a rule with one
satisfied condition matches. -/
theorem c7_counterexample :
    c7_rule.predicate = some "ALL" ∧ "ALL" ≠ "all" ∧ "ALL" ≠ "any" ∧
    c7_rule.conditions ≠ [] ∧ evaluate_rule 0 c7_email c7_rule = .ok true := by
  decide

/-- Claim C7 as amended: a rule with zero conditions never matches; the
mode string is lowercased first (a missing mode defaults to "all"); when
no condition evaluation raises, lowercased mode "all" gives the AND and
"any" the OR of the per-condition results; any other lowercased mode gives
false. -/
theorem c7_matches_composition (now : Int) (e : Email) (r : Rule) :
    (r.conditions = [] → evaluate_rule now e r = .ok false) ∧
    (r.conditions ≠ [] →
      (∀ c ∈ r.conditions, except_ok (evaluate_condition now e c) = true) →
      (lower_string (r.predicate.getD "all") = "all" →
        evaluate_rule now e r
          = .ok (r.conditions.all fun c =>
              decide (evaluate_condition now e c = .ok true))) ∧
      (lower_string (r.predicate.getD "all") = "any" →
        evaluate_rule now e r
          = .ok (r.conditions.any fun c =>
              decide (evaluate_condition now e c = .ok true)))) ∧
    (r.conditions ≠ [] → lower_string (r.predicate.getD "all") ≠ "all" →
      lower_string (r.predicate.getD "all") ≠ "any" →
      evaluate_rule now e r = .ok false) := by
  have hempty : r.conditions ≠ [] → r.conditions.isEmpty = false := by
    intro hne
    cases hcs : r.conditions with
    | nil => exact absurd hcs hne
    | cons a as => rfl
  refine ⟨?_, ?_, ?_⟩
  · intro h
    rw [evaluate_rule, if_pos (by simp [h])]
  · intro hne herr
    constructor
    · intro hmode
      rw [evaluate_rule, if_neg (by simp [hempty hne]), if_pos hmode]
      exact eval_all_eq_all now e r.conditions herr
    · intro hmode
      rw [evaluate_rule, if_neg (by simp [hempty hne]),
        if_neg (by rw [hmode]; decide), if_pos hmode]
      exact eval_any_eq_any now e r.conditions herr
  · intro hne hall hany
    rw [evaluate_rule, if_neg (by simp [hempty hne]), if_neg hall, if_neg hany]

/-- Claim C7 witness: mode "Any" (lowercased to "any") composes the
per-condition results with OR. -/
theorem c7_witness :
    evaluate_rule 0 c7w_email c7w_rule
      = .ok (c7w_rule.conditions.any fun c =>
          decide (evaluate_condition 0 c7w_email c = .ok true)) :=
  ((c7_matches_composition 0 c7w_email c7w_rule).2.1 (by decide) (by decide)).2
    (by decide)

/-- Claim C8 counterexample: the claim says no exception escapes the
condition evaluator for any condition value, including a non-numeric value
supplied to a date predicate; but `less_than_days` with value "abc"
reaches `int("abc")`, which raises `ValueError`. -/
theorem c8_counterexample :
    evaluate_condition 0 c8_email c8_condition = .error .valueError := by
  decide

/-- Claim C8 as amended: condition evaluation returns false (without
raising) when the field or predicate is missing or the value is null, when
the field is unknown, and when the predicate name is not registered for
the field's type (string fields only accept string predicates,
received_date only date predicates); however evaluation is not total: a
registered date predicate whose value does not parse as an integer raises
`ValueError`. -/
theorem c8_condition_evaluation (now : Int) (e : Email) (c : Condition) :
    (c.field.getD "" = "" ∨ c.predicate.getD "" = "" ∨ c.value = none →
      evaluate_condition now e c = .ok false) ∧
    (∀ f, c.field = some f → f ∉ knownFields →
      evaluate_condition now e c = .ok false) ∧
    (∀ f p, c.field = some f → f ∈ ["from", "to", "subject", "message"] →
      c.predicate = some p →
      p ∉ ["contains", "does_not_contain", "equals", "does_not_equal"] →
      evaluate_condition now e c = .ok false) ∧
    (∀ p, c.field = some "received_date" → c.predicate = some p →
      p ∉ ["less_than_days", "greater_than_days", "less_than_months",
        "greater_than_months"] →
      evaluate_condition now e c = .ok false) ∧
    (∀ p v, c.field = some "received_date" → c.predicate = some p →
      p ∈ ["less_than_days", "greater_than_days", "less_than_months",
        "greater_than_months"] →
      c.value = some v → py_int v = none →
      evaluate_condition now e c = .error .valueError) := by
  refine ⟨?_, ?_, ?_, ?_, ?_⟩
  · intro h
    rw [evaluate_condition, if_pos h]
  · intro f hfield hunk
    exact evaluate_condition_malformed now e c
      (Or.inr (Or.inr (Or.inr (by simp [hfield, hunk]))))
  · intro f p hfield hf hpred hp
    by_cases hb : c.field.getD "" = "" ∨ c.predicate.getD "" = "" ∨ c.value = none
    · rw [evaluate_condition, if_pos hb]
    · rw [evaluate_condition, if_neg hb]
      simp only [hfield, hpred, Option.getD_some]
      simp only [List.mem_cons, List.not_mem_nil, or_false] at hf
      rcases hf with rfl | rfl | rfl | rfl
      · simp [get_field_value, apply_string_predicate_unregistered p _ _ hp]
      · simp [get_field_value, apply_string_predicate_unregistered p _ _ hp]
      · cases hs : e.subject with
        | none => simp [get_field_value, hs]
        | some s => simp [get_field_value, hs,
            apply_string_predicate_unregistered p _ _ hp]
      · cases hs : e.body with
        | none => simp [get_field_value, hs]
        | some s => simp [get_field_value, hs,
            apply_string_predicate_unregistered p _ _ hp]
  · intro p hfield hpred hp
    by_cases hb : c.field.getD "" = "" ∨ c.predicate.getD "" = "" ∨ c.value = none
    · rw [evaluate_condition, if_pos hb]
    · rw [evaluate_condition, if_neg hb]
      simp only [hfield, hpred, Option.getD_some]
      simp [get_field_value, apply_date_predicate_unregistered now p _ _ hp]
  · intro p v hfield hpred hp hval hpv
    have hb : ¬(c.field.getD "" = "" ∨ c.predicate.getD "" = "" ∨ c.value = none) := by
      simp only [List.mem_cons, List.not_mem_nil, or_false] at hp
      rcases hp with rfl | rfl | rfl | rfl <;> simp [hfield, hpred, hval]
    rw [evaluate_condition, if_neg hb]
    simp only [hfield, hpred, hval, Option.getD_some]
    simp [get_field_value, apply_date_predicate_bad_value now p v _ hp hpv]

/-- Claim C8 witness: unknown field, date predicate on a string field,
string predicate on the date field — all false without raising — and a
non-numeric date value raising `ValueError`. -/
theorem c8_witness :
    evaluate_condition 0 c8_email ⟨some "zzz", some "contains", some "x"⟩
      = .ok false ∧
    evaluate_condition 0 c8_email ⟨some "subject", some "less_than_days", some "3"⟩
      = .ok false ∧
    evaluate_condition 0 c8_email ⟨some "received_date", some "contains", some "x"⟩
      = .ok false ∧
    evaluate_condition 0 c8_email
        ⟨some "received_date", some "greater_than_days", some "x1"⟩
      = .error .valueError := by
  refine ⟨?_, ?_, ?_, ?_⟩
  · exact (c8_condition_evaluation 0 c8_email _).2.1 "zzz" rfl (by decide)
  · exact (c8_condition_evaluation 0 c8_email _).2.2.1 "subject" "less_than_days"
      rfl (by decide) rfl (by decide)
  · exact (c8_condition_evaluation 0 c8_email _).2.2.2.1 "contains" rfl rfl (by decide)
  · exact (c8_condition_evaluation 0 c8_email _).2.2.2.2 "greater_than_days" "x1"
      rfl rfl (by decide) rfl (by decide)

/-- Claim C1: the claim says the in-memory rule matcher is re-applied to
every selected record before any action is dispatched.  The code never
calls `_evaluate_rule` inside `process_emails`: at this input the rule
does not match in memory (its only condition has an unregistered
predicate, hence false), the pushdown drops that condition and selects the
record anyway — and the action is dispatched: one remote call is made, the
store is updated and the execution is logged for a non-matching record. -/
theorem c1_action_dispatched_without_rematch :
    evaluate_rule 0 c1_email c1_rule = .ok false ∧
    (process_emails [c1_rule] handle_action 0 c1_world).map
        (fun r => (r.1, r.2.calls, (db_lookup r.2.db 1).map Email.is_read,
          r.2.db.executions))
      = .ok (1, [RemoteOp.markRead "m1"], some true,
          [⟨1, "r1", [("mark_as_read", none)]⟩]) := by
  constructor
  · decide
  · decide

/-- Claim C2: the claim says every rule's batch of successful actions is
committed at the end of that rule's processing.  The code's
`bulk_log_rule_executions` call sits after the rule loop and
`batch_actions` is reset per rule, so only the LAST rule's batch is
committed: here both rules act (count 2, both remote calls made), yet only
rule "rb"'s execution is logged and rule "ra"'s batch is silently lost. -/
theorem c2_only_last_rule_batch_logged :
    (process_emails [c2_rule1, c2_rule2] handle_action 0 c2_world).map
        (fun r => (r.1, r.2.calls, r.2.db.executions))
      = .ok (2, [RemoteOp.markRead "m1", RemoteOp.markRead "m2"],
          [⟨2, "rb", [("mark_as_read", none)]⟩]) := by
  decide

/-- Claim C6: the claim says an action whose remote call fails is treated
as not-applied.  The code discards the fetcher's boolean: in a world where
every remote call fails, `handle_action` still returns true, the store is
mirrored to read, the execution is recorded, and a subsequent selection
for the same rule no longer returns the record — it is NOT eligible for
reprocessing. -/
theorem c6_failed_remote_still_applied :
    c6_world.remoteOk (RemoteOp.markRead "m6") = false ∧
    (fetcher_mark_as_read "m6" c6_world).1 = false ∧
    (handle_action c6_email "mark_as_read" none c6_world).1 = true ∧
    (db_lookup (handle_action c6_email "mark_as_read" none c6_world).2.db 1).map
        Email.is_read = some true ∧
    (handle_action c6_email "mark_as_read" none c6_world).2.calls
      = [RemoteOp.markRead "m6"] ∧
    (process_emails [c6_rule] handle_action 0 c6_world).map
        (fun r => r.2.db.executions)
      = .ok [⟨1, "r6", [("mark_as_read", none)]⟩] ∧
    (process_emails [c6_rule] handle_action 0 c6_world).map
        (fun r => get_emails_for_rule c6_rule r.2.db 0)
      = .ok (.ok []) := by
  refine ⟨rfl, rfl, rfl, by decide, rfl, by decide, by decide⟩

end GmailRulesEngine
